import Mathlib

/-!
Shallow embedding of the price-acquisition and alert-evaluation core of the
rCryptoBot repository (src/services/priceFeeds.js, src/services/alerts.js,
src/utils/helpers.js, src/config/config.example.js), together with theorems
settling the specification claims about it.

Modelling conventions:
- JavaScript strings are lists of character codes (ASCII case mapping of
  toLowerCase and toUpperCase embedded explicitly).
- JavaScript numbers carrying prices and percentages are rationals;
  timestamps are naturals, compared through integer subtraction exactly as
  JS number subtraction behaves on them.
- JavaScript Map objects and plain objects used as dictionaries are
  association lists; Map.get and Map.set become assocGet and assocSet.
- Thrown exceptions are modelled with the Except monad; an async function
  that catches every error it can raise is total and returns Except values
  that are provably never errors.
-/

/-- A JavaScript string, as its list of character codes. -/
abbrev JSString := List Nat

/-- Character-level ASCII case mapping used by String.prototype.toLowerCase. -/
def jsCharToLower (c : Nat) : Nat :=
  if 65 ≤ c ∧ c ≤ 90 then c + 32 else c

/-- Character-level ASCII case mapping used by String.prototype.toUpperCase. -/
def jsCharToUpper (c : Nat) : Nat :=
  if 97 ≤ c ∧ c ≤ 122 then c - 32 else c

/-- Embedding of symbol.toLowerCase() on ASCII strings. -/
def toLowerCase (s : JSString) : JSString := s.map jsCharToLower

/-- Embedding of symbol.toUpperCase() on ASCII strings. -/
def toUpperCase (s : JSString) : JSString := s.map jsCharToUpper

/-- Convenience conversion from a Lean string literal to a JSString. -/
def js (s : String) : JSString := s.data.map (fun c => c.toNat)

/-- Lookup in an association list, modelling Map.get / object indexing. -/
def assocGet {α β : Type} [DecidableEq α] (k : α) : List (α × β) → Option β
  | [] => none
  | (k', v) :: rest => if k = k' then some v else assocGet k rest

/-- Update in an association list, modelling Map.set / object assignment. -/
def assocSet {α β : Type} [DecidableEq α] (k : α) (v : β) : List (α × β) → List (α × β)
  | [] => [(k, v)]
  | (k', v') :: rest => if k = k' then (k, v) :: rest else (k', v') :: assocSet k v rest

/-- Embedding of Math.abs on rationals. -/
def jsMathAbs (x : ℚ) : ℚ := if x < 0 then -x else x

/-- Rounding performed by Number.prototype.toFixed(2) (nearest, ties up). -/
def jsToFixed2 (q : ℚ) : ℚ := (round (q * 100) : ℤ) / 100

/- ===== src/utils/helpers.js ===== -/

/-- helpers.js lines 52-54: symbolMap[symbol.toUpperCase()] || symbol.toLowerCase().
The || also replaces an empty mapped id (falsy in JS) by the lowercased symbol. -/
def getCoinGeckoId (symbol : JSString) (symbolMap : List (JSString × JSString)) : JSString :=
  match assocGet (toUpperCase symbol) symbolMap with
  | some id => if id = [] then toLowerCase symbol else id
  | none => toLowerCase symbol

/- ===== src/config/config.example.js ===== -/

/-- The configuration fields consumed by the price resolver. -/
structure Config where
  CACHE_DURATION : Nat
  RATE_LIMIT_BACKOFF : Nat
  PRICE_FRESHNESS_WINDOW : Nat
  SYMBOL_MAP : List (JSString × JSString)
deriving Repr

/-- config.example.js: the default tunables and the CoinGecko symbol map. -/
def defaultConfig : Config where
  CACHE_DURATION := 120000
  RATE_LIMIT_BACKOFF := 120000
  PRICE_FRESHNESS_WINDOW := 15000
  SYMBOL_MAP :=
    [(js "BTC", js "bitcoin"), (js "ETH", js "ethereum"), (js "SOL", js "solana"),
     (js "XRP", js "ripple"), (js "HYPE", js "hyperliquid"), (js "ASTER", js "astar"),
     (js "WLFI", js "world-liberty-financial"), (js "SUI", js "sui"),
     (js "ADA", js "cardano"), (js "JUP", js "jupiter-exchange-solana"),
     (js "XCN", js "chain-2"), (js "LINK", js "chainlink"), (js "AAVE", js "aave"),
     (js "DOT", js "polkadot"), (js "UNI", js "uniswap"), (js "MATIC", js "matic-network"),
     (js "AVAX", js "avalanche-2"), (js "ATOM", js "cosmos"), (js "BNB", js "binancecoin"),
     (js "DOGE", js "dogecoin"), (js "LTC", js "litecoin"), (js "BCH", js "bitcoin-cash"),
     (js "XLM", js "stellar"), (js "VET", js "vechain"), (js "FIL", js "filecoin"),
     (js "TRX", js "tron")]

/- ===== src/services/priceFeeds.js : data model ===== -/

/-- Tag recording which upstream populated a stored price entry. -/
inductive Source
  | cryptocompare
  | coincap
  | coingeckoFallback
  | coingecko
deriving DecidableEq, Repr

/-- The payload shape returned by getCryptoData (priceFeeds.js lines 29-34):
price, 24h change (none standing for the string N/A), market cap and volume
(none standing for N/A, which also absorbs a falsy 0 from upstream). -/
structure CryptoData where
  price : ℚ
  change24h : Option ℚ
  marketCap : Option ℚ
  volume24h : Option ℚ
deriving DecidableEq, Repr

/-- A stored entry of the realtimePrices map or of the priceCache map:
the payload fields plus a timestamp and a source tag. -/
structure PriceEntry where
  data : CryptoData
  timestamp : Nat
  source : Source
deriving DecidableEq, Repr

/-- The module-level shared state of priceFeeds.js (lines 7-9). -/
structure FeedState where
  realtimePrices : List (JSString × PriceEntry)
  priceCache : List (JSString × PriceEntry)
  lastRateLimitTime : Nat
deriving DecidableEq, Repr

/-- An error a network call can throw: a response with HTTP status 429,
or anything else (timeout, 5xx, malformed payload, ...). -/
inductive JsError
  | rateLimit429
  | other
deriving DecidableEq, Repr

/-- One field of the CoinGecko simple/price response for one coin id. -/
structure ApiCoinData where
  usd : ℚ
  usd_24h_change : Option ℚ
  usd_market_cap : Option ℚ
  usd_24h_vol : Option ℚ
deriving DecidableEq, Repr

/-- The outcome of the single HTTP request issued by getCryptoData:
a 200 response with its payload (coin id keyed), or a thrown 429,
or any other thrown error. -/
inductive HttpOutcome
  | ok (payload : List (JSString × ApiCoinData))
  | rateLimited
  | otherError
deriving Repr

/-- The axios.get call of getCryptoData (priceFeeds.js lines 14-22), viewed
through the exception monad. -/
def axiosGetSimplePrice (outcome : HttpOutcome) :
    Except JsError (List (JSString × ApiCoinData)) :=
  match outcome with
  | .ok payload => .ok payload
  | .rateLimited => .error .rateLimit429
  | .otherError => .error .other

/-- priceFeeds.js lines 12-39, getCryptoData: fetch one symbol from
CoinGecko.  The whole body is wrapped in try/catch and the catch returns
null, so the function never lets an error escape; missing coin data also
yields null.  marketCap and volume24h use a falsy-check (0 becomes N/A),
change24h is stringified by toFixed(2) before the falsy check. -/
def getCryptoData (cfg : Config) (symbol : JSString) (outcome : HttpOutcome) :
    Except JsError (Option CryptoData) :=
  match axiosGetSimplePrice outcome with
  | .error _ => .ok none
  | .ok payload =>
    match assocGet (getCoinGeckoId symbol cfg.SYMBOL_MAP) payload with
    | none => .ok none
    | some d => .ok (some
        { price := d.usd
        , change24h := (d.usd_24h_change).map jsToFixed2
        , marketCap := match d.usd_market_cap with
            | some m => if m = 0 then none else some m
            | none => none
        , volume24h := match d.usd_24h_vol with
            | some v => if v = 0 then none else some v
            | none => none })

instance {ε α : Type} [DecidableEq ε] [DecidableEq α] : DecidableEq (Except ε α) := fun x y =>
  match x, y with
  | .ok a, .ok b =>
      if h : a = b then isTrue (by rw [h])
      else isFalse (by intro hh; cases hh; exact h rfl)
  | .error a, .error b =>
      if h : a = b then isTrue (by rw [h])
      else isFalse (by intro hh; cases hh; exact h rfl)
  | .ok _, .error _ => isFalse (by intro hh; cases hh)
  | .error _, .ok _ => isFalse (by intro hh; cases hh)

/-- A value returned by the resolver: a stored entry (realtime or cache),
or the bare fresh payload of a successful cold fetch (which in the source
is returned without timestamp and source fields). -/
inductive PriceResult
  | entry (e : PriceEntry)
  | fresh (d : CryptoData)
deriving DecidableEq, Repr

/-- The observable outcome of one getCachedCryptoData call: the returned
value (or thrown error), the shared state afterwards, and whether the cold
fetch to CoinGecko was issued. -/
structure ResolveOut where
  result : Except JsError (Option PriceResult)
  state : FeedState
  didFetch : Bool
deriving DecidableEq, Repr

/-- priceFeeds.js lines 173-239, getCachedCryptoData: the cached price
resolver.  Decision order: fresh realtime entry, global rate-limit backoff
gate, warm cache (skipped under forceRefresh), cold fetch.  The catch
branch around the cold fetch (429 handling and rethrow, lines 223-236) is
embedded faithfully; it is unreachable because getCryptoData catches its
own errors and returns null. -/
def getCachedCryptoData (cfg : Config) (st : FeedState) (symbol : JSString)
    (forceRefresh : Bool) (now : Nat) (outcome : HttpOutcome) : ResolveOut :=
  let cacheKey := toLowerCase symbol
  let symbolUpper := toUpperCase symbol
  let rtFresh : Option PriceEntry :=
    match assocGet symbolUpper st.realtimePrices with
    | some rt => if (now : ℤ) - rt.timestamp < cfg.PRICE_FRESHNESS_WINDOW then some rt else none
    | none => none
  match rtFresh with
  | some rt => ⟨.ok (some (.entry rt)), st, false⟩
  | none =>
    if (now : ℤ) - st.lastRateLimitTime < cfg.RATE_LIMIT_BACKOFF then
      match assocGet cacheKey st.priceCache with
      | some c => ⟨.ok (some (.entry c)), st, false⟩
      | none =>
        match assocGet symbolUpper st.realtimePrices with
        | some rt => ⟨.ok (some (.entry rt)), st, false⟩
        | none => ⟨.ok none, st, false⟩
    else
      let warm : Option PriceEntry :=
        if forceRefresh then none
        else
          match assocGet cacheKey st.priceCache with
          | some c => if (now : ℤ) - c.timestamp < cfg.CACHE_DURATION then some c else none
          | none => none
      match warm with
      | some c => ⟨.ok (some (.entry c)), st, false⟩
      | none =>
        match getCryptoData cfg symbol outcome with
        | .ok (some freshData) =>
          ⟨.ok (some (.fresh freshData)),
           { st with priceCache :=
               assocSet cacheKey ⟨freshData, now, .coingecko⟩ st.priceCache },
           true⟩
        | .ok none => ⟨.ok none, st, true⟩
        | .error e =>
          if e = .rateLimit429 then
            let st' := { st with lastRateLimitTime := now }
            match assocGet cacheKey st.priceCache with
            | some c => ⟨.ok (some (.entry c)), st', true⟩
            | none =>
              match assocGet symbolUpper st.realtimePrices with
              | some rt => ⟨.ok (some (.entry rt)), st', true⟩
              | none => ⟨.error e, st', true⟩
          else ⟨.error e, st, true⟩

/- ===== src/services/alerts.js : auto-volatility evaluator ===== -/

/-- A per-symbol auto-volatility baseline (alerts.js lines 31-36):
the seed price/time and the last-alert price/time driving the cooldown. -/
structure Baseline where
  price : ℚ
  timestamp : Nat
  lastAlertPrice : ℚ
  lastAlertTime : Nat
deriving DecidableEq, Repr

/-- The autoAlerts module state (alerts.js lines 8-13): per-chat opt-in
flags, per-symbol baselines, and the cooldown/threshold tunables. -/
structure AutoAlerts where
  enabled : List (Nat × Bool)
  baselines : List (JSString × Baseline)
  cooldown : Nat
  threshold : ℚ
deriving DecidableEq, Repr

/-- The payload of one volatility broadcast message (alerts.js lines 53-58):
the chat it goes to, the symbol, the triggering price and the baseline
price it is compared against. -/
structure Notification where
  chatId : Nat
  symbol : JSString
  currentPrice : ℚ
  lastAlertPrice : ℚ
deriving DecidableEq, Repr

/-- alerts.js lines 21-77, the loop body of checkAutoVolatilityAlerts for
one symbol: seed the baseline on first sight (lastAlertTime is seeded to 0,
not to now), else fire exactly when the absolute percent change from
lastAlertPrice reaches the threshold and the cooldown has elapsed, sending
to every enabled chat and then rebasing lastAlertPrice/lastAlertTime. -/
def checkAutoSymbol (auto : AutoAlerts) (symbol : JSString) (currentPrice : ℚ)
    (now : Nat) : AutoAlerts × List Notification :=
  match assocGet symbol auto.baselines with
  | none =>
      ({ auto with baselines := assocSet symbol ⟨currentPrice, now, currentPrice, 0⟩ auto.baselines }, [])
  | some baseline =>
      if jsMathAbs ((currentPrice - baseline.lastAlertPrice) / baseline.lastAlertPrice * 100)
            ≥ auto.threshold ∧
          (now : ℤ) - baseline.lastAlertTime > auto.cooldown then
        ({ auto with baselines := assocSet symbol ⟨baseline.price, baseline.timestamp, currentPrice, now⟩ auto.baselines },
         auto.enabled.filterMap fun cb =>
           if cb.2 then
             some ⟨cb.1, symbol, currentPrice, baseline.lastAlertPrice⟩
           else none)
      else (auto, [])

/-- alerts.js lines 16-78: iterate the tracked symbols (the keys of the
realtime table), look each one up, and run the per-symbol body, threading
the autoAlerts state and accumulating the broadcasts. -/
def checkAutoLoop (realtime : List (JSString × PriceEntry)) (now : Nat) :
    AutoAlerts → List JSString → AutoAlerts × List Notification
  | auto, [] => (auto, [])
  | auto, s :: rest =>
    match assocGet s realtime with
    | none => checkAutoLoop realtime now auto rest
    | some e =>
      let step := checkAutoSymbol auto s e.data.price now
      let next := checkAutoLoop realtime now step.1 rest
      (next.1, step.2 ++ next.2)

/-- alerts.js checkAutoVolatilityAlerts: run the loop over all keys of the
realtime table. -/
def checkAutoVolatilityAlerts (auto : AutoAlerts)
    (realtime : List (JSString × PriceEntry)) (now : Nat) :
    AutoAlerts × List Notification :=
  checkAutoLoop realtime now auto (realtime.map Prod.fst)

/- ===== src/services/alerts.js : manual alerts ===== -/

/-- Lifecycle states of a manual alert. -/
inductive AlertStatus
  | active
  | triggered
deriving DecidableEq, Repr

/-- A manual alert as created by the /alert command handler
(src/unnamed/part_000 lines 258-265): the currentPrice field is the price
at creation time (the originalPrice of the crossing rule); triggerTime and
triggerPrice are stamped when the alert fires. -/
structure Alert where
  symbol : JSString
  targetPrice : ℚ
  currentPrice : ℚ
  timestamp : Nat
  alertId : JSString
  status : AlertStatus
  triggerTime : Option Nat
  triggerPrice : Option ℚ
deriving DecidableEq, Repr

/-- The price resolver as the alert engine sees it: checkAlerts receives
getCachedCryptoData as a parameter (alerts.js line 198) and calls it with
forceRefresh true, observing either a thrown error, null, or a data record. -/
abbrev Resolver := JSString → Except JsError (Option CryptoData)

/-- alerts.js lines 204-248, the evaluation of one stored alert in one
checkAlerts cycle: triggered alerts are filtered out (status active guard),
a thrown resolver error or a null result skips the alert unchanged, and
otherwise the crossing rule (strict direction from targetPrice vs the
creation price, inclusive comparison against the target) decides whether
the alert transitions to triggered, is stamped, and fires its notification
(the returned flag). -/
def evalAlert (resolve : Resolver) (now : Nat) (a : Alert) : Alert × Bool :=
  if a.status = .active then
    match resolve a.symbol with
    | .error _ => (a, false)
    | .ok none => (a, false)
    | .ok (some currentData) =>
      if (a.targetPrice > a.currentPrice ∧ currentData.price ≥ a.targetPrice) ∨
          (a.targetPrice < a.currentPrice ∧ currentData.price ≤ a.targetPrice) then
        ({ a with status := .triggered, triggerTime := some now
                , triggerPrice := some currentData.price }, true)
      else (a, false)
  else (a, false)

/-- A sequence of evaluation cycles applied to one stored alert: each cycle
carries the resolver view and clock of that cycle.  Returns the final alert
record and the total number of cycles in which its notification fired. -/
def runAlert : List (Resolver × Nat) → Alert → Alert × Nat
  | [], a => (a, 0)
  | (r, t) :: rest, a =>
    ((runAlert rest (evalAlert r t a).1).1,
     (if (evalAlert r t a).2 then 1 else 0) + (runAlert rest (evalAlert r t a).1).2)

/- ===== Concrete inputs used by witnesses and counterexamples ===== -/

/-- A shared feed state holding one stale cache entry for btc, no realtime
entries, and a never-armed backoff gate. -/
def feedStateStaleBtc : FeedState where
  realtimePrices := []
  priceCache := [(js "btc", ⟨⟨50000, none, none, none⟩, 0, .coingecko⟩)]
  lastRateLimitTime := 0

/-- A realtime entry carrying price 200 observed at time 1000. -/
def rtEntrySol : PriceEntry := ⟨⟨200, none, none, none⟩, 1000, .cryptocompare⟩

/-- A feed state with one realtime entry for SOL and an armed backoff gate. -/
def feedStateRtSol : FeedState where
  realtimePrices := [(js "SOL", rtEntrySol)]
  priceCache := []
  lastRateLimitTime := 900000

/-- Auto-volatility state with one subscribed chat, one SOL baseline at
price 100 with the cooldown clock at 0, and the default tunables. -/
def autoStateSol : AutoAlerts where
  enabled := [(1, true)]
  baselines := [(js "SOL", ⟨100, 0, 100, 0⟩)]
  cooldown := 3600000
  threshold := 3

/-- A manual alert whose target equals its creation price. -/
def alertTargetEqualsOriginal : Alert where
  symbol := js "BTC"
  targetPrice := 100
  currentPrice := 100
  timestamp := 0
  alertId := js "BTC_100_0"
  status := .active
  triggerTime := none
  triggerPrice := none

/-- A resolver that always reports price 100 for every symbol. -/
def resolverAlways100 : Resolver := fun _ => .ok (some ⟨100, none, none, none⟩)

/-- An already-triggered manual alert. -/
def alertAlreadyTriggered : Alert where
  symbol := js "BTC"
  targetPrice := 60000
  currentPrice := 50000
  timestamp := 0
  alertId := js "BTC_60000_0"
  status := .triggered
  triggerTime := some 5
  triggerPrice := some 60000

/-- An active manual alert with an upward target. -/
def alertUp : Alert where
  symbol := js "BTC"
  targetPrice := 60000
  currentPrice := 50000
  timestamp := 0
  alertId := js "BTC_60000_0"
  status := .active
  triggerTime := none
  triggerPrice := none

/-- A resolver that always reports price 60000 for every symbol. -/
def resolverAlways60000 : Resolver := fun _ => .ok (some ⟨60000, none, none, none⟩)

/-- Auto-volatility state with one subscribed chat and no baselines yet. -/
def autoEmptyBaselines : AutoAlerts where
  enabled := [(1, true)]
  baselines := []
  cooldown := 3600000
  threshold := 3

/-- The state autoStateSol reaches after its SOL baseline is rebased by a
fire at price 207/2 and time 10000000. -/
def autoStateSolAfter1 : AutoAlerts where
  enabled := [(1, true)]
  baselines := [(js "SOL", ⟨100, 0, 207/2, 10000000⟩)]
  cooldown := 3600000
  threshold := 3

/-- Auto-volatility state identical to autoStateSol except that the only
known chat has the subscription flag disabled. -/
def autoStateSolNoSubs : AutoAlerts where
  enabled := [(1, false)]
  baselines := [(js "SOL", ⟨100, 0, 100, 0⟩)]
  cooldown := 3600000
  threshold := 3

/- ===== Supporting lemmas ===== -/

theorem jsCharToLower_jsCharToUpper (c : Nat) :
    jsCharToLower (jsCharToUpper c) = jsCharToLower c := by
  unfold jsCharToLower jsCharToUpper
  split_ifs <;> omega

theorem jsCharToUpper_jsCharToUpper (c : Nat) :
    jsCharToUpper (jsCharToUpper c) = jsCharToUpper c := by
  unfold jsCharToUpper
  split_ifs <;> omega

theorem jsCharToUpper_jsCharToLower (c : Nat) :
    jsCharToUpper (jsCharToLower c) = jsCharToUpper c := by
  unfold jsCharToLower jsCharToUpper
  split_ifs <;> omega

theorem jsCharToLower_jsCharToLower (c : Nat) :
    jsCharToLower (jsCharToLower c) = jsCharToLower c := by
  unfold jsCharToLower
  split_ifs <;> omega

theorem toLowerCase_toUpperCase (s : JSString) :
    toLowerCase (toUpperCase s) = toLowerCase s := by
  unfold toLowerCase toUpperCase
  rw [List.map_map]
  exact List.map_congr_left fun c _ => jsCharToLower_jsCharToUpper c

theorem toUpperCase_toUpperCase (s : JSString) :
    toUpperCase (toUpperCase s) = toUpperCase s := by
  unfold toUpperCase
  rw [List.map_map]
  exact List.map_congr_left fun c _ => jsCharToUpper_jsCharToUpper c

theorem toUpperCase_toLowerCase (s : JSString) :
    toUpperCase (toLowerCase s) = toUpperCase s := by
  unfold toLowerCase toUpperCase
  rw [List.map_map]
  exact List.map_congr_left fun c _ => jsCharToUpper_jsCharToLower c

theorem toLowerCase_toLowerCase (s : JSString) :
    toLowerCase (toLowerCase s) = toLowerCase s := by
  unfold toLowerCase
  rw [List.map_map]
  exact List.map_congr_left fun c _ => jsCharToLower_jsCharToLower c

theorem assocGet_assocSet_self {α β : Type} [DecidableEq α] (k : α) (v : β)
    (l : List (α × β)) : assocGet k (assocSet k v l) = some v := by
  induction l with
  | nil => simp [assocGet, assocSet]
  | cons hd tl ih =>
      by_cases h : k = hd.1
      · simp [assocGet, assocSet, h]
      · simp [assocGet, assocSet, h, ih]

theorem assocGet_assocSet_ne {α β : Type} [DecidableEq α] {k k' : α} (v : β)
    (l : List (α × β)) (h : k ≠ k') : assocGet k (assocSet k' v l) = assocGet k l := by
  induction l with
  | nil => simp [assocGet, assocSet, h]
  | cons hd tl ih =>
      by_cases h' : k' = hd.1
      · subst h'
        simp [assocGet, assocSet, h]
      · by_cases h'' : k = hd.1 <;> simp [assocGet, assocSet, h', h'', ih]

theorem assocGet_some_mem {α β : Type} [DecidableEq α] {k : α} {v : β}
    {l : List (α × β)} (h : assocGet k l = some v) : k ∈ l.map Prod.fst := by
  induction l with
  | nil => simp [assocGet] at h
  | cons hd tl ih =>
      by_cases h' : k = hd.1
      · simp [h']
      · simp only [assocGet, if_neg h'] at h
        simp [ih h]

/-- getCryptoData catches every error it can raise and returns null, so it
never lets one escape to its caller; in particular the catch branch of
getCachedCryptoData cannot be reached. -/
theorem getCryptoData_never_throws (cfg : Config) (symbol : JSString)
    (outcome : HttpOutcome) : ∃ v, getCryptoData cfg symbol outcome = .ok v := by
  cases outcome with
  | ok payload =>
      simp only [getCryptoData, axiosGetSimplePrice]
      cases assocGet (getCoinGeckoId symbol cfg.SYMBOL_MAP) payload <;> exact ⟨_, rfl⟩
  | rateLimited => exact ⟨none, rfl⟩
  | otherError => exact ⟨none, rfl⟩

theorem evalAlert_of_triggered (r : Resolver) (t : Nat) (a : Alert)
    (h : a.status = .triggered) : evalAlert r t a = (a, false) := by
  unfold evalAlert
  rw [h]
  simp

theorem evalAlert_fired_status (r : Resolver) (t : Nat) (a : Alert)
    (h : (evalAlert r t a).2 = true) : (evalAlert r t a).1.status = .triggered := by
  by_cases ha : a.status = .active
  · cases hr : r a.symbol with
    | error e => simp [evalAlert, ha, hr] at h
    | ok v =>
        cases v with
        | none => simp [evalAlert, ha, hr] at h
        | some cd =>
            by_cases hc : (a.targetPrice > a.currentPrice ∧ cd.price ≥ a.targetPrice) ∨
                (a.targetPrice < a.currentPrice ∧ cd.price ≤ a.targetPrice)
            · simp [evalAlert, ha, hr, hc]
            · simp [evalAlert, ha, hr, hc] at h
  · simp [evalAlert, ha] at h

theorem runAlert_of_triggered (cycles : List (Resolver × Nat)) (a : Alert)
    (h : a.status = .triggered) : runAlert cycles a = (a, 0) := by
  induction cycles with
  | nil => rfl
  | cons c rest ih =>
      obtain ⟨r, t⟩ := c
      simp [runAlert, evalAlert_of_triggered r t a h, ih]

theorem checkAutoSymbol_enabled (auto : AutoAlerts) (s : JSString) (p : ℚ) (now : Nat) :
    (checkAutoSymbol auto s p now).1.enabled = auto.enabled := by
  unfold checkAutoSymbol
  split
  · rfl
  · split <;> rfl

theorem checkAutoSymbol_baselines_ne (auto : AutoAlerts) (s s' : JSString) (p : ℚ)
    (now : Nat) (h : s' ≠ s) :
    assocGet s' (checkAutoSymbol auto s p now).1.baselines = assocGet s' auto.baselines := by
  unfold checkAutoSymbol
  split
  · simpa using assocGet_assocSet_ne _ _ h
  · split
    · simpa using assocGet_assocSet_ne _ _ h
    · rfl

theorem checkAutoSymbol_notif_symbol (auto : AutoAlerts) (s : JSString) (p : ℚ)
    (now : Nat) (n : Notification) (hn : n ∈ (checkAutoSymbol auto s p now).2) :
    n.symbol = s := by
  unfold checkAutoSymbol at hn
  split at hn
  · simp at hn
  · split at hn
    · simp only [List.mem_filterMap] at hn
      obtain ⟨cb, _, hcb⟩ := hn
      split at hcb
      · cases hcb
        rfl
      · cases hcb
    · simp at hn

theorem checkAutoSymbol_seed (auto : AutoAlerts) (s : JSString) (p : ℚ) (now : Nat)
    (h : assocGet s auto.baselines = none) :
    checkAutoSymbol auto s p now =
      ({ auto with baselines := assocSet s ⟨p, now, p, 0⟩ auto.baselines }, []) := by
  unfold checkAutoSymbol
  rw [h]

theorem checkAutoLoop_baselines_not_mem (realtime : List (JSString × PriceEntry))
    (now : Nat) (s : JSString) :
    ∀ (ks : List JSString) (auto : AutoAlerts), s ∉ ks →
      assocGet s (checkAutoLoop realtime now auto ks).1.baselines
        = assocGet s auto.baselines := by
  intro ks
  induction ks with
  | nil => intro auto _; rfl
  | cons k rest ih =>
      intro auto hs
      have hks : s ∉ rest := fun hh => hs (List.mem_cons_of_mem _ hh)
      have hkne : s ≠ k := fun hh => hs (hh ▸ List.mem_cons_self _ _)
      unfold checkAutoLoop
      cases hre : assocGet k realtime with
      | none => exact ih auto hks
      | some e =>
          simp only
          rw [ih _ hks, checkAutoSymbol_baselines_ne _ _ _ _ _ hkne]

theorem checkAutoLoop_notif_mem (realtime : List (JSString × PriceEntry)) (now : Nat) :
    ∀ (ks : List JSString) (auto : AutoAlerts) (n : Notification),
      n ∈ (checkAutoLoop realtime now auto ks).2 → n.symbol ∈ ks := by
  intro ks
  induction ks with
  | nil => intro auto n hn; cases hn
  | cons k rest ih =>
      intro auto n hn
      unfold checkAutoLoop at hn
      cases hre : assocGet k realtime with
      | none =>
          rw [hre] at hn
          exact List.mem_cons_of_mem _ (ih _ _ hn)
      | some e =>
          rw [hre] at hn
          simp only [List.mem_append] at hn
          cases hn with
          | inl h => exact (checkAutoSymbol_notif_symbol _ _ _ _ _ h) ▸ List.mem_cons_self _ _
          | inr h => exact List.mem_cons_of_mem _ (ih _ _ h)

theorem getCachedCryptoData_congr (cfg : Config) (st : FeedState) (s1 s2 : JSString)
    (f : Bool) (now : Nat) (outcome : HttpOutcome)
    (h1 : toLowerCase s1 = toLowerCase s2) (h2 : toUpperCase s1 = toUpperCase s2) :
    getCachedCryptoData cfg st s1 f now outcome
      = getCachedCryptoData cfg st s2 f now outcome := by
  unfold getCachedCryptoData getCryptoData getCoinGeckoId
  rw [h1, h2]

theorem getCachedCryptoData_rt_fresh (cfg : Config) (st : FeedState) (symbol : JSString)
    (f : Bool) (now : Nat) (outcome : HttpOutcome) (rt : PriceEntry)
    (hget : assocGet (toUpperCase symbol) st.realtimePrices = some rt)
    (htime : (now : ℤ) - rt.timestamp < cfg.PRICE_FRESHNESS_WINDOW) :
    getCachedCryptoData cfg st symbol f now outcome = ⟨.ok (some (.entry rt)), st, false⟩ := by
  simp [getCachedCryptoData, hget, htime]

theorem getCachedCryptoData_under_backoff (cfg : Config) (st : FeedState)
    (symbol : JSString) (f : Bool) (now : Nat) (outcome : HttpOutcome)
    (hb : (now : ℤ) - st.lastRateLimitTime < cfg.RATE_LIMIT_BACKOFF)
    (hnf : ∀ rt : PriceEntry, assocGet (toUpperCase symbol) st.realtimePrices = some rt →
        ¬ ((now : ℤ) - rt.timestamp < cfg.PRICE_FRESHNESS_WINDOW)) :
    getCachedCryptoData cfg st symbol f now outcome =
      ⟨.ok (match assocGet (toLowerCase symbol) st.priceCache with
            | some c => some (.entry c)
            | none =>
              match assocGet (toUpperCase symbol) st.realtimePrices with
              | some rt => some (.entry rt)
              | none => none),
       st, false⟩ := by
  cases hrt : assocGet (toUpperCase symbol) st.realtimePrices with
  | none =>
      cases hc : assocGet (toLowerCase symbol) st.priceCache with
      | none => simp [getCachedCryptoData, hrt, hc, hb]
      | some c => simp [getCachedCryptoData, hrt, hc, hb]
  | some rt =>
      have hstale := hnf rt hrt
      cases hc : assocGet (toLowerCase symbol) st.priceCache with
      | none => simp [getCachedCryptoData, hrt, hc, hb, hstale]
      | some c => simp [getCachedCryptoData, hrt, hc, hb, hstale]

theorem checkAutoLoop_seed (realtime : List (JSString × PriceEntry)) (now : Nat) :
    ∀ (ks : List JSString) (auto : AutoAlerts), ks.Nodup →
      ∀ (s : JSString) (e : PriceEntry), s ∈ ks →
        assocGet s realtime = some e → assocGet s auto.baselines = none →
        assocGet s (checkAutoLoop realtime now auto ks).1.baselines
          = some ⟨e.data.price, now, e.data.price, 0⟩ ∧
        ∀ n ∈ (checkAutoLoop realtime now auto ks).2, n.symbol ≠ s := by
  intro ks
  induction ks with
  | nil => intro auto _ s e hs; cases hs
  | cons k rest ih =>
      intro auto hnd s e hs hre hb
      have hndrest : rest.Nodup := (List.nodup_cons.mp hnd).2
      by_cases hks : s = k
      · subst hks
        have hsrest : s ∉ rest := (List.nodup_cons.mp hnd).1
        unfold checkAutoLoop
        rw [hre]
        simp only
        rw [checkAutoSymbol_seed _ _ _ _ hb]
        constructor
        · rw [checkAutoLoop_baselines_not_mem _ _ _ _ _ hsrest]
          simp only
          exact assocGet_assocSet_self _ _ _
        · intro n hn
          simp only [List.nil_append] at hn
          intro hsym
          exact hsrest (hsym ▸ checkAutoLoop_notif_mem _ _ _ _ _ hn)
      · have hsrest : s ∈ rest := by
          cases hs with
          | head => exact absurd rfl hks
          | tail _ hh => exact hh
        unfold checkAutoLoop
        cases hkre : assocGet k realtime with
        | none => exact ih auto hndrest s e hsrest hre hb
        | some ke =>
            simp only
            have hb' : assocGet s (checkAutoSymbol auto k ke.data.price now).1.baselines = none := by
              rw [checkAutoSymbol_baselines_ne _ _ _ _ _ hks]
              exact hb
            have hres := ih _ hndrest s e hsrest hre hb'
            refine ⟨hres.1, ?_⟩
            intro n hn
            simp only [List.mem_append] at hn
            cases hn with
            | inl h =>
                rw [checkAutoSymbol_notif_symbol _ _ _ _ _ h]
                exact fun hh => hks hh.symm
            | inr h => exact hres.2 n h

/- ===== Claim theorems ===== -/

/-- C1: the claim says a 429 on the cold fetch makes the resolver arm the
global backoff gate (lastRateLimitTime := now) and fall back to cache, else
realtime, else no data.  In the code getCryptoData already catches the 429
and returns null, so the 429 handler inside getCachedCryptoData is
unreachable: with a stale cache entry for btc present and a rate-limited
cold fetch, the resolver returns null instead of the cache entry and leaves
lastRateLimitTime untouched (still 0, not now).  Only the final part of the
claim (no thrown error reaches the caller) matches the code. -/
theorem claim_C1_rate_limit_handler_dead :
    getCachedCryptoData defaultConfig feedStateStaleBtc (js "BTC") false 10000000 .rateLimited
      = ⟨.ok none, feedStateStaleBtc, true⟩ := by
  decide

/-- C2: the claim says a non-rate-limit cold-fetch failure is propagated to
the caller as an error.  In the code getCryptoData catches every error and
returns null, so the rethrow inside getCachedCryptoData is unreachable:
with the same state and an otherError outcome the resolver returns the
value null (Except.ok none) rather than a thrown error, and the general
lemma getCryptoData_never_throws shows no fetch error can ever escape. -/
theorem claim_C2_other_error_not_propagated :
    getCachedCryptoData defaultConfig feedStateStaleBtc (js "BTC") false 10000000 .otherError
      = ⟨.ok none, feedStateStaleBtc, true⟩ := by
  decide

/-- C5: whenever the realtime table holds an entry for the uppercased
symbol whose age is within the freshness window, getCachedCryptoData
returns exactly that entry, mutates nothing and issues no cold fetch,
for every cache state, backoff state, forceRefresh flag and fetch outcome. -/
theorem claim_C5_realtime_freshness_precedence :
    ∀ (cfg : Config) (st : FeedState) (symbol : JSString) (forceRefresh : Bool)
      (now : Nat) (outcome : HttpOutcome) (rt : PriceEntry),
      assocGet (toUpperCase symbol) st.realtimePrices = some rt →
      (now : ℤ) - rt.timestamp < cfg.PRICE_FRESHNESS_WINDOW →
      getCachedCryptoData cfg st symbol forceRefresh now outcome
        = ⟨.ok (some (.entry rt)), st, false⟩ := by
  intro cfg st symbol f now outcome rt hget htime
  exact getCachedCryptoData_rt_fresh cfg st symbol f now outcome rt hget htime

/-- C5 witness: a concrete fresh realtime entry for SOL short-circuits a
forced refresh with no cold fetch. -/
theorem claim_C5_realtime_freshness_precedence_witness :
    assocGet (toUpperCase (js "sol")) feedStateRtSol.realtimePrices = some rtEntrySol ∧
    ((10000 : ℤ) - rtEntrySol.timestamp < defaultConfig.PRICE_FRESHNESS_WINDOW) ∧
    getCachedCryptoData defaultConfig feedStateRtSol (js "sol") true 10000 .otherError
      = ⟨.ok (some (.entry rtEntrySol)), feedStateRtSol, false⟩ :=
  ⟨by decide, by decide,
   claim_C5_realtime_freshness_precedence defaultConfig feedStateRtSol (js "sol") true
     10000 .otherError rtEntrySol (by decide) (by decide)⟩

/-- C6: while the global backoff gate is armed, getCachedCryptoData issues
no cold fetch and mutates nothing, for every symbol, forceRefresh flag and
fetch outcome; and absent a fresh realtime entry it returns the cache entry
for the lowercased symbol regardless of its TTL, else the realtime entry
regardless of age, else null. -/
theorem claim_C6_global_backoff_gate :
    ∀ (cfg : Config) (st : FeedState) (symbol : JSString) (forceRefresh : Bool)
      (now : Nat) (outcome : HttpOutcome),
      (now : ℤ) - st.lastRateLimitTime < cfg.RATE_LIMIT_BACKOFF →
      (getCachedCryptoData cfg st symbol forceRefresh now outcome).didFetch = false ∧
      (getCachedCryptoData cfg st symbol forceRefresh now outcome).state = st ∧
      ((∀ rt : PriceEntry, assocGet (toUpperCase symbol) st.realtimePrices = some rt →
          ¬ ((now : ℤ) - rt.timestamp < cfg.PRICE_FRESHNESS_WINDOW)) →
        (getCachedCryptoData cfg st symbol forceRefresh now outcome).result =
          .ok (match assocGet (toLowerCase symbol) st.priceCache with
               | some c => some (.entry c)
               | none =>
                 match assocGet (toUpperCase symbol) st.realtimePrices with
                 | some rt => some (.entry rt)
                 | none => none)) := by
  intro cfg st symbol f now outcome hb
  by_cases hex : ∀ rt : PriceEntry, assocGet (toUpperCase symbol) st.realtimePrices = some rt →
      ¬ ((now : ℤ) - rt.timestamp < cfg.PRICE_FRESHNESS_WINDOW)
  · rw [getCachedCryptoData_under_backoff cfg st symbol f now outcome hb hex]
    exact ⟨rfl, rfl, fun _ => rfl⟩
  · push_neg at hex
    obtain ⟨rt, hget, hfresh⟩ := hex
    rw [getCachedCryptoData_rt_fresh cfg st symbol f now outcome rt hget hfresh]
    exact ⟨rfl, rfl, fun hno => absurd hfresh (hno rt hget)⟩

/-- C6 witness: with the gate armed and only a stale realtime entry for
SOL, a forced refresh issues no cold fetch. -/
theorem claim_C6_global_backoff_gate_witness :
    ((950000 : ℤ) - feedStateRtSol.lastRateLimitTime < defaultConfig.RATE_LIMIT_BACKOFF) ∧
    (getCachedCryptoData defaultConfig feedStateRtSol (js "SOL") true 950000 .otherError).didFetch
      = false :=
  ⟨by decide,
   (claim_C6_global_backoff_gate defaultConfig feedStateRtSol (js "SOL") true
     950000 .otherError (by decide)).1⟩

/-- C9: the resolver's outcome is invariant under the letter case of the
symbol argument: resolving the uppercased or the lowercased symbol gives
exactly the same result, state and fetch behaviour as resolving the symbol
itself, for every configuration, shared state and fetch outcome, because
the cache is probed with the lowercased symbol, the realtime table with the
uppercased symbol, and the upstream id lookup uppercases first. -/
theorem claim_C9_case_insensitive_resolution :
    ∀ (cfg : Config) (st : FeedState) (symbol : JSString) (forceRefresh : Bool)
      (now : Nat) (outcome : HttpOutcome),
      getCachedCryptoData cfg st (toUpperCase symbol) forceRefresh now outcome
        = getCachedCryptoData cfg st symbol forceRefresh now outcome ∧
      getCachedCryptoData cfg st (toLowerCase symbol) forceRefresh now outcome
        = getCachedCryptoData cfg st symbol forceRefresh now outcome := by
  intro cfg st symbol f now outcome
  exact ⟨getCachedCryptoData_congr cfg st (toUpperCase symbol) symbol f now outcome
           (toLowerCase_toUpperCase symbol) (toUpperCase_toUpperCase symbol),
         getCachedCryptoData_congr cfg st (toLowerCase symbol) symbol f now outcome
           (toLowerCase_toLowerCase symbol) (toUpperCase_toLowerCase symbol)⟩

/-- C3: once a manual alert's status is triggered it is never re-evaluated
(every later cycle leaves it untouched and fires nothing), and over every
sequence of evaluation cycles, with arbitrary resolver views and clocks,
its notification fires at most once. -/
theorem claim_C3_at_most_once_trigger :
    (∀ (cycles : List (Resolver × Nat)) (a : Alert),
        a.status = .triggered → runAlert cycles a = (a, 0)) ∧
    (∀ (cycles : List (Resolver × Nat)) (a : Alert), (runAlert cycles a).2 ≤ 1) := by
  constructor
  · exact fun cycles a h => runAlert_of_triggered cycles a h
  · intro cycles
    induction cycles with
    | nil => intro a; simp [runAlert]
    | cons c rest ih =>
        obtain ⟨r, t⟩ := c
        intro a
        by_cases hf : (evalAlert r t a).2 = true
        · have htrig := evalAlert_fired_status r t a hf
          simp only [runAlert, hf]
          rw [runAlert_of_triggered rest _ htrig]
          simp
        · rw [Bool.not_eq_true] at hf
          simp only [runAlert, hf]
          simpa using ih (evalAlert r t a).1

/-- C3 witness: a triggered alert is left untouched with zero fires by a
concrete cycle, and a concrete two-cycle run on an active alert whose
crossing condition stays true fires at most once. -/
theorem claim_C3_at_most_once_trigger_witness :
    alertAlreadyTriggered.status = .triggered ∧
    runAlert [(resolverAlways60000, 7)] alertAlreadyTriggered = (alertAlreadyTriggered, 0) ∧
    (runAlert [(resolverAlways60000, 7), (resolverAlways60000, 8)] alertUp).2 ≤ 1 :=
  ⟨rfl, claim_C3_at_most_once_trigger.1 _ _ rfl,
   claim_C3_at_most_once_trigger.2 _ _⟩

/-- C4 counterexample: the claim says an alert whose target equals its
creation price satisfies the crossing rule as soon as any price is
observed.  In the code both crossing disjuncts compare targetPrice against
the creation price strictly, so such an alert never triggers: a concrete
evaluation with target = creation price = 100 and an observed price of 100
fires nothing and leaves the alert active. -/
theorem claim_C4_equal_target_never_triggers :
    evalAlert resolverAlways100 5 alertTargetEqualsOriginal
      = (alertTargetEqualsOriginal, false) := by
  decide

/-- C4 amended: an active alert observing a price triggers exactly when
(targetPrice > originalPrice and price at or above target) or
(targetPrice < originalPrice and price at or below target); an alert whose
target equals its creation price never triggers, for every resolver view
and clock. -/
theorem claim_C4_crossing_rule :
    (∀ (r : Resolver) (now : Nat) (a : Alert) (cd : CryptoData),
        a.status = .active → r a.symbol = .ok (some cd) →
        ((evalAlert r now a).2 = true ↔
          (a.targetPrice > a.currentPrice ∧ cd.price ≥ a.targetPrice) ∨
          (a.targetPrice < a.currentPrice ∧ cd.price ≤ a.targetPrice))) ∧
    (∀ (r : Resolver) (now : Nat) (a : Alert),
        a.targetPrice = a.currentPrice → (evalAlert r now a).2 = false) := by
  constructor
  · intro r now a cd ha hr
    by_cases hc : (a.targetPrice > a.currentPrice ∧ cd.price ≥ a.targetPrice) ∨
        (a.targetPrice < a.currentPrice ∧ cd.price ≤ a.targetPrice)
    · simp [evalAlert, ha, hr, hc]
    · simp [evalAlert, ha, hr, hc]
  · intro r now a heq
    unfold evalAlert
    split
    · split
      · rfl
      · rfl
      · simp [heq]
    · rfl

/-- C4 witness: the crossing rule instantiated at a concrete upward alert
and at a concrete alert whose target equals its creation price. -/
theorem claim_C4_crossing_rule_witness :
    alertUp.status = .active ∧
    ((evalAlert resolverAlways60000 7 alertUp).2 = true ↔
      (alertUp.targetPrice > alertUp.currentPrice ∧ (60000 : ℚ) ≥ alertUp.targetPrice) ∨
      (alertUp.targetPrice < alertUp.currentPrice ∧ (60000 : ℚ) ≤ alertUp.targetPrice)) ∧
    alertTargetEqualsOriginal.targetPrice = alertTargetEqualsOriginal.currentPrice ∧
    (evalAlert resolverAlways100 5 alertTargetEqualsOriginal).2 = false :=
  ⟨rfl,
   claim_C4_crossing_rule.1 resolverAlways60000 7 alertUp ⟨60000, none, none, none⟩ rfl rfl,
   rfl,
   claim_C4_crossing_rule.2 resolverAlways100 5 alertTargetEqualsOriginal rfl⟩

theorem checkAutoSymbol_fire (auto : AutoAlerts) (s : JSString) (b : Baseline)
    (p : ℚ) (now : Nat) (hb : assocGet s auto.baselines = some b)
    (hc : jsMathAbs ((p - b.lastAlertPrice) / b.lastAlertPrice * 100) ≥ auto.threshold ∧
        (now : ℤ) - b.lastAlertTime > auto.cooldown) :
    checkAutoSymbol auto s p now
      = ({ auto with baselines := assocSet s ⟨b.price, b.timestamp, p, now⟩ auto.baselines },
         auto.enabled.filterMap fun cb =>
           if cb.2 then some ⟨cb.1, s, p, b.lastAlertPrice⟩ else none) := by
  simp [checkAutoSymbol, hb, hc.1, hc.2]

theorem checkAutoSymbol_no_fire (auto : AutoAlerts) (s : JSString) (b : Baseline)
    (p : ℚ) (now : Nat) (hb : assocGet s auto.baselines = some b)
    (hc : ¬ (jsMathAbs ((p - b.lastAlertPrice) / b.lastAlertPrice * 100) ≥ auto.threshold ∧
        (now : ℤ) - b.lastAlertTime > auto.cooldown)) :
    checkAutoSymbol auto s p now = (auto, []) := by
  simp only [checkAutoSymbol, hb]
  rw [if_neg hc]

theorem autoSolFirstMove :
    checkAutoSymbol autoStateSol (js "SOL") (207/2) 10000000
      = (autoStateSolAfter1, [⟨1, js "SOL", 207/2, 100⟩]) := by
  rw [checkAutoSymbol_fire autoStateSol (js "SOL") ⟨100, 0, 100, 0⟩ (207/2) 10000000
      (by rfl) ⟨by norm_num [jsMathAbs, autoStateSol], by norm_num [autoStateSol]⟩]
  rfl

theorem autoSolSecondMoveEarly :
    checkAutoSymbol autoStateSolAfter1 (js "SOL") (42849/400) 10600000
      = (autoStateSolAfter1, []) := by
  rw [checkAutoSymbol_no_fire autoStateSolAfter1 (js "SOL") ⟨100, 0, 207/2, 10000000⟩
      (42849/400) 10600000 (by rfl) ?_]
  intro h
  have := h.2
  norm_num [autoStateSolAfter1] at this

theorem autoSolSecondMoveLate :
    (checkAutoSymbol autoStateSolAfter1 (js "SOL") (42849/400) 13660000).2.length = 1 := by
  rw [checkAutoSymbol_fire autoStateSolAfter1 (js "SOL") ⟨100, 0, 207/2, 10000000⟩
      (42849/400) 13660000 (by rfl)
      ⟨by norm_num [jsMathAbs, autoStateSolAfter1], by norm_num [autoStateSolAfter1]⟩]
  rfl

/-- C7: for a symbol with an existing baseline of nonzero reference price,
the auto-volatility evaluator fires exactly when the absolute percent
change from lastAlertPrice reaches the threshold and the time since the
last alert exceeds the cooldown, and on firing it rebases lastAlertPrice
and lastAlertTime to the triggering price and time while broadcasting to
the subscribed chats; consequently, with threshold 3 percent and cooldown
one hour, a +3.5 percent move followed by another +3.5 percent move ten
minutes later fires once, while the same second move after 61 minutes
fires a second time. -/
theorem claim_C7_threshold_cooldown_rebase :
    (∀ (auto : AutoAlerts) (s : JSString) (b : Baseline) (p : ℚ) (now : Nat),
        assocGet s auto.baselines = some b → b.lastAlertPrice ≠ 0 →
        ((jsMathAbs ((p - b.lastAlertPrice) / b.lastAlertPrice * 100) ≥ auto.threshold ∧
            (now : ℤ) - b.lastAlertTime > auto.cooldown →
          checkAutoSymbol auto s p now
            = ({ auto with baselines := assocSet s ⟨b.price, b.timestamp, p, now⟩ auto.baselines },
               auto.enabled.filterMap fun cb =>
                 if cb.2 then some ⟨cb.1, s, p, b.lastAlertPrice⟩ else none)) ∧
         (¬ (jsMathAbs ((p - b.lastAlertPrice) / b.lastAlertPrice * 100) ≥ auto.threshold ∧
            (now : ℤ) - b.lastAlertTime > auto.cooldown) →
          checkAutoSymbol auto s p now = (auto, [])))) ∧
    ((checkAutoSymbol autoStateSol (js "SOL") (207/2) 10000000).2.length = 1 ∧
     (checkAutoSymbol (checkAutoSymbol autoStateSol (js "SOL") (207/2) 10000000).1
        (js "SOL") (42849/400) 10600000).2.length = 0) ∧
    (checkAutoSymbol (checkAutoSymbol autoStateSol (js "SOL") (207/2) 10000000).1
        (js "SOL") (42849/400) 13660000).2.length = 1 := by
  refine ⟨?_, ⟨?_, ?_⟩, ?_⟩
  · intro auto s b p now hb _
    exact ⟨fun hc => checkAutoSymbol_fire auto s b p now hb hc,
           fun hc => checkAutoSymbol_no_fire auto s b p now hb hc⟩
  · rw [autoSolFirstMove]
    rfl
  · simp only [autoSolFirstMove, autoSolSecondMoveEarly]
    rfl
  · simp only [autoSolFirstMove]
    exact autoSolSecondMoveLate

/-- C7 witness: the firing branch instantiated at the concrete SOL
baseline, threshold and cooldown of autoStateSol. -/
theorem claim_C7_threshold_cooldown_rebase_witness :
    assocGet (js "SOL") autoStateSol.baselines = some ⟨100, 0, 100, 0⟩ ∧
    ((100 : ℚ) ≠ 0) ∧
    checkAutoSymbol autoStateSol (js "SOL") (207/2) 10000000
      = (autoStateSolAfter1, [⟨1, js "SOL", 207/2, 100⟩]) :=
  ⟨by rfl, by norm_num,
   Trans.trans
     ((claim_C7_threshold_cooldown_rebase.1 autoStateSol (js "SOL") ⟨100, 0, 100, 0⟩
        (207/2) 10000000 (by rfl) (by norm_num)).1
       ⟨by norm_num [jsMathAbs, autoStateSol], by norm_num [autoStateSol]⟩)
     (by rfl)⟩

/-- C8 counterexample: the claim says the seeded baseline carries a last
alert timestamp equal to the current time.  The code seeds the cooldown
field lastAlertTime to 0, not to now: with no baseline for SOL and a
realtime price of 200 observed at evaluation time 1000, the stored
baseline is (price 200, seed timestamp 1000, lastAlertPrice 200,
lastAlertTime 0), and 0 is not the current time 1000.  The rest of the
claim (lastAlertPrice seeded to the current price, no alert on that cycle)
does hold. -/
theorem claim_C8_seed_time_counterexample :
    (checkAutoVolatilityAlerts autoEmptyBaselines [(js "SOL", rtEntrySol)] 1000).1.baselines
      = [(js "SOL", ⟨200, 1000, 200, 0⟩)] ∧
    (checkAutoVolatilityAlerts autoEmptyBaselines [(js "SOL", rtEntrySol)] 1000).2 = [] ∧
    (0 : Nat) ≠ 1000 := by
  refine ⟨by decide, by decide, by decide⟩

/-- C8 amended: for every symbol present in the realtime table (whose keys
are pairwise distinct, as a Map's are) with no existing baseline, one run
of the auto-volatility evaluator seeds the baseline with lastAlertPrice
equal to the current price and lastAlertTime equal to 0 (not to the
current time, so the first qualifying move is not cooldown-suppressed),
and fires no alert for that symbol on that cycle. -/
theorem claim_C8_first_sight_seeds_silently :
    ∀ (auto : AutoAlerts) (realtime : List (JSString × PriceEntry)) (now : Nat)
      (s : JSString) (e : PriceEntry),
      (realtime.map Prod.fst).Nodup →
      assocGet s realtime = some e →
      assocGet s auto.baselines = none →
      assocGet s (checkAutoVolatilityAlerts auto realtime now).1.baselines
        = some ⟨e.data.price, now, e.data.price, 0⟩ ∧
      ∀ n ∈ (checkAutoVolatilityAlerts auto realtime now).2, n.symbol ≠ s := by
  intro auto realtime now s e hnd hre hb
  exact checkAutoLoop_seed realtime now (realtime.map Prod.fst) auto hnd s e
    (assocGet_some_mem hre) hre hb

/-- C8 witness: the seeding theorem instantiated at the concrete SOL
first-sight state. -/
theorem claim_C8_first_sight_seeds_silently_witness :
    ([(js "SOL", rtEntrySol)].map Prod.fst).Nodup ∧
    assocGet (js "SOL") [(js "SOL", rtEntrySol)] = some rtEntrySol ∧
    assocGet (js "SOL") autoEmptyBaselines.baselines = none ∧
    assocGet (js "SOL")
        (checkAutoVolatilityAlerts autoEmptyBaselines [(js "SOL", rtEntrySol)] 1000).1.baselines
      = some ⟨200, 1000, 200, 0⟩ :=
  ⟨by decide, by decide, by decide,
   (claim_C8_first_sight_seeds_silently autoEmptyBaselines [(js "SOL", rtEntrySol)] 1000
      (js "SOL") rtEntrySol (by decide) (by decide) (by decide)).1⟩

/-- C10: whenever the threshold and cooldown conditions hold for a symbol
with an existing baseline, the baseline is rebased to the triggering price
and time regardless of the subscription flags, and if no chat has the flag
enabled the broadcast list is empty — the qualifying move is consumed
without any notification being delivered. -/
theorem claim_C10_rebase_without_subscribers :
    ∀ (auto : AutoAlerts) (s : JSString) (b : Baseline) (p : ℚ) (now : Nat),
      assocGet s auto.baselines = some b →
      jsMathAbs ((p - b.lastAlertPrice) / b.lastAlertPrice * 100) ≥ auto.threshold →
      (now : ℤ) - b.lastAlertTime > auto.cooldown →
      assocGet s (checkAutoSymbol auto s p now).1.baselines
        = some ⟨b.price, b.timestamp, p, now⟩ ∧
      ((∀ cb ∈ auto.enabled, cb.2 = false) → (checkAutoSymbol auto s p now).2 = []) := by
  intro auto s b p now hb h1 h2
  rw [checkAutoSymbol_fire auto s b p now hb ⟨h1, h2⟩]
  constructor
  · exact assocGet_assocSet_self _ _ _
  · intro hall
    simp only [List.filterMap_eq_nil_iff]
    intro cb hcb
    simp [hall cb hcb]

/-- C10 witness: a qualifying 3.5 percent move with the only chat
unsubscribed still rebases the SOL baseline and delivers nothing. -/
theorem claim_C10_rebase_without_subscribers_witness :
    assocGet (js "SOL") autoStateSolNoSubs.baselines = some ⟨100, 0, 100, 0⟩ ∧
    assocGet (js "SOL")
        (checkAutoSymbol autoStateSolNoSubs (js "SOL") (207/2) 10000000).1.baselines
      = some ⟨100, 0, 207/2, 10000000⟩ ∧
    (checkAutoSymbol autoStateSolNoSubs (js "SOL") (207/2) 10000000).2 = [] :=
  ⟨by rfl,
   (claim_C10_rebase_without_subscribers autoStateSolNoSubs (js "SOL") ⟨100, 0, 100, 0⟩
      (207/2) 10000000 (by rfl) (by norm_num [jsMathAbs, autoStateSolNoSubs])
      (by norm_num [autoStateSolNoSubs])).1,
   (claim_C10_rebase_without_subscribers autoStateSolNoSubs (js "SOL") ⟨100, 0, 100, 0⟩
      (207/2) 10000000 (by rfl) (by norm_num [jsMathAbs, autoStateSolNoSubs])
      (by norm_num [autoStateSolNoSubs])).2 (by decide)⟩
